import Mathlib

/-!
Shallow embedding of the Customer-Service core of the Go-Core-Bank repository:
the data model (`internal/customer/models`), the persistence gateway
(`internal/customer/repository/customer_repository.go`) and the business-logic
layer (`internal/customer/service/customer_service.go`).

Modelling conventions:
* UUIDs and timestamps are modelled as `Nat`; `gorm.DeletedAt` as `Option Nat`
  (`none` = not deleted).
* Go errors created with `errors.New` / `fmt.Errorf` are modelled as the
  `String` they carry; the HTTP layer dispatches on these exact strings.
* The relational store (PostgreSQL through GORM) is a list of rows.  GORM's
  soft-delete scope adds `deleted_at IS NULL` to queries; the schema declared
  by the model tags (`gorm:"uniqueIndex"` on `email`) is a plain unique index
  over all rows, deleted or not.  `ILIKE '%q%'` filtering is modelled, per the
  specification's store contract, as case-insensitive substring matching.
* Store-generated values (fresh ids, clock readings) are passed as explicit
  arguments to the operations that need them.
-/

deriving instance DecidableEq for Except

namespace CoreBank

/-- Address value object (`models.Address`): five optional strings, embedded
into the customer row. -/
structure Address where
  street : String
  city : String
  state : String
  postalCode : String
  country : String
deriving DecidableEq, Repr

/-- Status type `models.CustomerStatus` is a Go string type with four named constants. -/
abbrev CustomerStatus := String

def customerStatusActive : CustomerStatus := "active"

def customerStatusInactive : CustomerStatus := "inactive"

def customerStatusSuspended : CustomerStatus := "suspended"

def customerStatusClosed : CustomerStatus := "closed"

/-- A customer row (`models.Customer`).  `deletedAt = some t` means the row is
soft-deleted (GORM `gorm.DeletedAt`). -/
structure Customer where
  id : Nat
  firstName : String
  lastName : String
  email : String
  phone : String
  dateOfBirth : Option Nat
  address : Address
  status : CustomerStatus
  createdAt : Nat
  updatedAt : Nat
  deletedAt : Option Nat
deriving DecidableEq, Repr

/-- Request payload `models.CustomerRequest`: the create/update payload. -/
structure CustomerRequest where
  firstName : String
  lastName : String
  email : String
  phone : String
  dateOfBirth : Option Nat
  address : Address
deriving DecidableEq, Repr

/-- Response shape `models.CustomerResponse`: the API-facing view (no `deletedAt`). -/
structure CustomerResponse where
  id : Nat
  firstName : String
  lastName : String
  email : String
  phone : String
  dateOfBirth : Option Nat
  address : Address
  status : CustomerStatus
  createdAt : Nat
  updatedAt : Nat
deriving DecidableEq, Repr

/-- Conversion `Customer.ToResponse` from `models/customer.go`. -/
def Customer.toResponse (c : Customer) : CustomerResponse :=
  { id := c.id
    firstName := c.firstName
    lastName := c.lastName
    email := c.email
    phone := c.phone
    dateOfBirth := c.dateOfBirth
    address := c.address
    status := c.status
    createdAt := c.createdAt
    updatedAt := c.updatedAt }

/-- List response `models.CustomerListResponse`.  `total` is the `int64` row count. -/
structure CustomerListResponse where
  customers : List CustomerResponse
  total : Nat
  page : Int
  pageSize : Int
  totalPages : Nat
deriving DecidableEq, Repr

/-- Search parameters `models.CustomerSearchRequest`. -/
structure CustomerSearchRequest where
  query : String
  status : CustomerStatus
  page : Int
  pageSize : Int
deriving DecidableEq, Repr

/-- The customer table: the state behind the GORM connection. -/
structure DB where
  rows : List Customer
deriving DecidableEq, Repr

/-! ### Store-level primitives (PostgreSQL/GORM semantics) -/

/-- Check that the first list is a prefix of the second. -/
def isPrefixList [DecidableEq α] : List α → List α → Bool
  | [], _ => true
  | _ :: _, [] => false
  | a :: as, b :: bs => a = b && isPrefixList as bs

/-- Check that the first list occurs contiguously inside the second. -/
def isSubList [DecidableEq α] : List α → List α → Bool
  | n, [] => n.isEmpty
  | n, b :: hs => isPrefixList n (b :: hs) || isSubList n hs

/-- Go `strings.Contains s sub`: `sub` occurs as a contiguous substring. -/
def strContains (sub s : String) : Bool :=
  isSubList sub.toList s.toList

/-- Lower-case a string character by character. -/
def lowerChars (s : String) : List Char :=
  s.toList.map Char.toLower

/-- Case-insensitive substring match: the meaning of `field ILIKE '%q%'` per
the store contract (case-insensitive substring matching). -/
def iLikeContains (q s : String) : Bool :=
  isSubList (lowerChars q) (lowerChars s)

/-- A row is visible when its `deleted_at` column is NULL: GORM's soft-delete
scope adds this condition to every query. -/
def visibleRows (rows : List Customer) : List Customer :=
  rows.filter (fun c => c.deletedAt = none)

/-- Ordering relation of `ORDER BY created_at DESC` on a result set. -/
def createdDesc (a b : Customer) : Prop :=
  b.createdAt ≤ a.createdAt

instance : DecidableRel createdDesc := fun a b =>
  inferInstanceAs (Decidable (b.createdAt ≤ a.createdAt))

instance : IsTotal Customer createdDesc :=
  ⟨fun a b => Nat.le_total b.createdAt a.createdAt⟩

instance : IsTrans Customer createdDesc :=
  ⟨fun _ _ _ h1 h2 => Nat.le_trans h2 h1⟩

def sortByCreatedDesc (rows : List Customer) : List Customer :=
  List.insertionSort createdDesc rows

/-- Slice taken by `LIMIT pageSize OFFSET (page-1)*pageSize` applied to an ordered result. -/
def pageSlice (page pageSize : Int) (rows : List Customer) : List Customer :=
  (rows.drop ((page - 1) * pageSize).toNat).take pageSize.toNat

/-- The raw message PostgreSQL emits on a unique-index violation; the
repository recognises it by the `duplicate key` fragment. -/
def duplicateKeyMsg : String :=
  "duplicate key value violates unique constraint"

/-- Row insertion (`INSERT`) under the schema of `models.Customer`: the unique index on
`email` (`gorm:"uniqueIndex"`) spans every row, soft-deleted rows included;
the store assigns the id and both timestamps. -/
def storeInsert (rows : List Customer) (c : Customer) (newId now : Nat) :
    Except String (List Customer × Customer) :=
  if rows.any (fun r => r.email = c.email) then
    Except.error duplicateKeyMsg
  else
    let saved := { c with id := newId, createdAt := now, updatedAt := now }
    Except.ok (rows ++ [saved], saved)

/-- Row save `db.Save(customer)`: full-row `UPDATE` by primary key under the
soft-delete scope, setting `updated_at`; the unique index on `email` rejects
the write when any other row holds the same email. -/
def storeSave (rows : List Customer) (c : Customer) (now : Nat) :
    Except String (List Customer × Customer) :=
  if rows.any (fun r => r.email = c.email ∧ r.id ≠ c.id) then
    Except.error duplicateKeyMsg
  else
    let saved := { c with updatedAt := now }
    Except.ok
      (rows.map (fun r => if r.id = c.id ∧ r.deletedAt = none then saved else r),
        saved)

/-! ### Persistence gateway (`customer_repository.go`) -/

/-- Error translation in `customerRepository.Create`: a `duplicate key`
store failure becomes the domain conflict error, anything else is wrapped by
`fmt.Errorf("failed to create customer: %w", err)`. -/
def translateCreateErr (err : String) : String :=
  if strContains "duplicate key" err then
    "customer with this email already exists"
  else
    "failed to create customer: " ++ err

/-- Error translation in `customerRepository.Update` (same shape as Create
with the `failed to update customer` prefix). -/
def translateUpdateErr (err : String) : String :=
  if strContains "duplicate key" err then
    "customer with this email already exists"
  else
    "failed to update customer: " ++ err

/-- Gateway `customerRepository.Create`. -/
def repoCreate (db : DB) (c : Customer) (newId now : Nat) :
    Except String (DB × Customer) :=
  match storeInsert db.rows c newId now with
  | Except.error err => Except.error (translateCreateErr err)
  | Except.ok (rows, saved) => Except.ok (⟨rows⟩, saved)

/-- Gateway `customerRepository.GetByID`: `First` under the soft-delete scope;
`gorm.ErrRecordNotFound` becomes `customer not found`. -/
def repoGetByID (db : DB) (id : Nat) : Except String Customer :=
  match (visibleRows db.rows).find? (fun c => c.id = id) with
  | none => Except.error "customer not found"
  | some c => Except.ok c

/-- Gateway `customerRepository.GetByEmail`: same shape keyed on `email`. -/
def repoGetByEmail (db : DB) (email : String) : Except String Customer :=
  match (visibleRows db.rows).find? (fun c => c.email = email) with
  | none => Except.error "customer not found"
  | some c => Except.ok c

/-- Gateway `customerRepository.Update`. -/
def repoUpdate (db : DB) (c : Customer) (now : Nat) :
    Except String (DB × Customer) :=
  match storeSave db.rows c now with
  | Except.error err => Except.error (translateUpdateErr err)
  | Except.ok (rows, saved) => Except.ok (⟨rows⟩, saved)

/-- Gateway `customerRepository.Delete`: GORM soft delete, an `UPDATE ... SET
deleted_at = now WHERE id = ? AND deleted_at IS NULL`; `RowsAffected == 0`
becomes `customer not found`. -/
def repoDelete (db : DB) (id : Nat) (now : Nat) : Except String DB :=
  let affected := db.rows.countP (fun c => c.id = id ∧ c.deletedAt = none)
  if affected = 0 then
    Except.error "customer not found"
  else
    Except.ok
      ⟨db.rows.map (fun c =>
        if c.id = id ∧ c.deletedAt = none then { c with deletedAt := some now } else c)⟩

/-- Gateway `customerRepository.List`: count of visible rows, then the
`ORDER BY created_at DESC LIMIT/OFFSET` slice. -/
def repoList (db : DB) (page pageSize : Int) : List Customer × Nat :=
  let total := (visibleRows db.rows).length
  (pageSlice page pageSize (sortByCreatedDesc (visibleRows db.rows)), total)

/-- The `WHERE` predicate built by `customerRepository.Search`: the optional
`ILIKE` disjunction over the four text columns AND the optional exact status
match. -/
def searchFilter (req : CustomerSearchRequest) (c : Customer) : Bool :=
  (req.query = "" ||
    (iLikeContains req.query c.firstName || iLikeContains req.query c.lastName ||
      iLikeContains req.query c.email || iLikeContains req.query c.phone)) &&
  (req.status = "" || c.status = req.status)

/-- Gateway `customerRepository.Search`: filter, count, then renormalize the incoming
page values (the repository re-applies the `≤ 0` defaults but not the 100
cap) and emit the ordered slice. -/
def repoSearch (db : DB) (req : CustomerSearchRequest) : List Customer × Nat :=
  let matched := (visibleRows db.rows).filter (searchFilter req)
  let total := matched.length
  let page : Int := if req.page ≤ 0 then 1 else req.page
  let pageSize : Int := if req.pageSize ≤ 0 then 10 else req.pageSize
  (pageSlice page pageSize (sortByCreatedDesc matched), total)

/-! ### Business-logic layer (`customer_service.go`) -/

/-- Validation `customerService.validateCustomerRequest`: four required-field checks in
declaration order, returning the first failure. -/
def validateCustomerRequest (req : CustomerRequest) : Option String :=
  if req.firstName = "" then some "first name is required"
  else if req.lastName = "" then some "last name is required"
  else if req.email = "" then some "email is required"
  else if req.phone = "" then some "phone is required"
  else none

/-- Page normalization in `ListCustomers`/`SearchCustomers`:
`if page <= 0 { page = 1 }`. -/
def normPage (page : Int) : Int :=
  if page ≤ 0 then 1 else page

/-- Page-size normalization in `ListCustomers`/`SearchCustomers`: default 10
when non-positive, then cap at 100. -/
def normPageSize (pageSize : Int) : Int :=
  if pageSize ≤ 0 then 10
  else if pageSize > 100 then 100
  else pageSize

/-- Page count `int(math.Ceil(float64(total) / float64(pageSize)))`, read over exact
rationals. -/
def goCeilDiv (total ps : Nat) : Nat :=
  (Int.ceil ((total : ℚ) / (ps : ℚ))).toNat

/-- The body of `CreateCustomer` after the email pre-check, taking the
pre-check's outcome (`existingCustomer`) as an argument. -/
def createCustomerCore (precheck : Option Customer) (db : DB)
    (req : CustomerRequest) (newId now : Nat) :
    Except String (DB × CustomerResponse) :=
  match validateCustomerRequest req with
  | some msg => Except.error msg
  | none =>
    match precheck with
    | some _ => Except.error "customer with this email already exists"
    | none =>
      let customer : Customer :=
        { id := 0
          firstName := req.firstName
          lastName := req.lastName
          email := req.email
          phone := req.phone
          dateOfBirth := req.dateOfBirth
          address := req.address
          status := customerStatusActive
          createdAt := 0
          updatedAt := 0
          deletedAt := none }
      match repoCreate db customer newId now with
      | Except.error err => Except.error err
      | Except.ok (db2, saved) => Except.ok (db2, saved.toResponse)

/-- Operation `CreateCustomer` with the result of the `GetByEmail` pre-check supplied
explicitly; the code discards the lookup's error
(`existingCustomer, _ := s.repo.GetByEmail(req.Email)`) and only asks whether
a customer came back. -/
def createCustomerWith (lookup : Except String Customer) (db : DB)
    (req : CustomerRequest) (newId now : Nat) :
    Except String (DB × CustomerResponse) :=
  createCustomerCore lookup.toOption db req newId now

/-- Operation `customerService.CreateCustomer`. -/
def createCustomer (db : DB) (req : CustomerRequest) (newId now : Nat) :
    Except String (DB × CustomerResponse) :=
  createCustomerWith (repoGetByEmail db req.email) db req newId now

/-- Operation `customerService.GetCustomer`. -/
def getCustomer (db : DB) (id : Nat) : Except String CustomerResponse :=
  match repoGetByID db id with
  | Except.error e => Except.error e
  | Except.ok c => Except.ok c.toResponse

/-- The tail of `UpdateCustomer` once the uniqueness pre-check is passed or
skipped: overwrite the six request fields on the loaded row and save it. -/
def updateApply (db : DB) (c : Customer) (req : CustomerRequest) (now : Nat) :
    Except String (DB × CustomerResponse) :=
  let c2 : Customer :=
    { c with
      firstName := req.firstName
      lastName := req.lastName
      email := req.email
      phone := req.phone
      dateOfBirth := req.dateOfBirth
      address := req.address }
  match repoUpdate db c2 now with
  | Except.error err => Except.error err
  | Except.ok (db2, saved) => Except.ok (db2, saved.toResponse)

/-- Operation `customerService.UpdateCustomer`. -/
def updateCustomer (db : DB) (id : Nat) (req : CustomerRequest) (now : Nat) :
    Except String (DB × CustomerResponse) :=
  match validateCustomerRequest req with
  | some msg => Except.error msg
  | none =>
    match repoGetByID db id with
    | Except.error e => Except.error e
    | Except.ok c =>
      if c.email ≠ req.email then
        match (repoGetByEmail db req.email).toOption with
        | some _ => Except.error "customer with this email already exists"
        | none => updateApply db c req now
      else
        updateApply db c req now

/-- Operation `customerService.DeleteCustomer`: existence check, then soft delete. -/
def deleteCustomer (db : DB) (id : Nat) (now : Nat) : Except String DB :=
  match repoGetByID db id with
  | Except.error e => Except.error e
  | Except.ok _ => repoDelete db id now

/-- Operation `customerService.ListCustomers`. -/
def listCustomers (db : DB) (page pageSize : Int) : CustomerListResponse :=
  let page := normPage page
  let pageSize := normPageSize pageSize
  let (customers, total) := repoList db page pageSize
  { customers := customers.map Customer.toResponse
    total := total
    page := page
    pageSize := pageSize
    totalPages := goCeilDiv total pageSize.toNat }

/-- Operation `customerService.SearchCustomers`. -/
def searchCustomers (db : DB) (req : CustomerSearchRequest) :
    CustomerListResponse :=
  let req2 := { req with page := normPage req.page, pageSize := normPageSize req.pageSize }
  let (customers, total) := repoSearch db req2
  { customers := customers.map Customer.toResponse
    total := total
    page := req2.page
    pageSize := req2.pageSize
    totalPages := goCeilDiv total req2.pageSize.toNat }

/-! ### Error-kind predicates (spec taxonomy over the code's messages) -/

/-- The messages `validateCustomerRequest` can emit (ValidationError kind). -/
def isValidationError (m : String) : Bool :=
  m = "first name is required" || m = "last name is required" ||
    m = "email is required" || m = "phone is required"

/-- The email-collision message (ConflictError kind). -/
def isConflictError (m : String) : Bool :=
  m = "customer with this email already exists"

/-- The missing-entity message (NotFoundError kind). -/
def isNotFoundError (m : String) : Bool :=
  m = "customer not found"

/-! ### Specification-level predicates -/

/-- Predicate stating that `q` occurs in `s` as a case-insensitive substring. -/
def CiSubstr (q s : String) : Prop :=
  lowerChars q <:+: lowerChars s

/-- The search predicate as the specification words it: a non-empty `query`
must occur case-insensitively in one of the four text fields, a non-empty
`status` must match exactly. -/
def SearchMatches (req : CustomerSearchRequest) (c : Customer) : Prop :=
  (req.query ≠ "" →
    (CiSubstr req.query c.firstName ∨ CiSubstr req.query c.lastName ∨
      CiSubstr req.query c.email ∨ CiSubstr req.query c.phone)) ∧
  (req.status ≠ "" → c.status = req.status)

instance (q s : String) : Decidable (CiSubstr q s) :=
  inferInstanceAs (Decidable (_ <:+: _))

instance (req : CustomerSearchRequest) (c : Customer) : Decidable (SearchMatches req c) :=
  inferInstanceAs (Decidable (_ ∧ _))

/-! ### Helper lemmas -/

theorem isPrefixList_iff [DecidableEq α] (n h : List α) :
    isPrefixList n h = true ↔ n <+: h := by
  induction n generalizing h with
  | nil => simp [isPrefixList]
  | cons a as ih =>
    cases h with
    | nil => simp [isPrefixList]
    | cons b bs =>
      simp [isPrefixList, List.cons_prefix_cons, ih, And.comm]

theorem isSubList_iff [DecidableEq α] (n h : List α) :
    isSubList n h = true ↔ n <:+: h := by
  induction h with
  | nil => simp [isSubList, List.isEmpty_iff]
  | cons b bs ih =>
    rw [isSubList]
    simp [isPrefixList_iff, ih, List.infix_cons_iff]

theorem iLikeContains_iff (q s : String) :
    iLikeContains q s = true ↔ CiSubstr q s := by
  rw [iLikeContains, CiSubstr, isSubList_iff]

theorem goCeilDiv_eq (total ps : Nat) (hps : 1 ≤ ps) :
    goCeilDiv total ps = (total + ps - 1) / ps := by
  have hb0 : (0:ℚ) < (ps:ℚ) := by exact_mod_cast hps
  have hdm := Nat.div_add_mod (total + ps - 1) ps
  set q := (total + ps - 1) / ps with hq
  set r := (total + ps - 1) % ps with hr
  have hrb : r < ps := Nat.mod_lt _ hps
  have hcast : (ps:ℚ) * q + r = (total:ℚ) + ps - 1 := by
    have h1 : ps * q + r = total + ps - 1 := hdm
    have hge : 1 ≤ total + ps := by omega
    have h2 := congrArg (fun n : ℕ => (n : ℚ)) h1
    push_cast at h2
    rw [Nat.cast_sub hge] at h2
    push_cast at h2
    linarith [h2]
  have hceil : Int.ceil ((total : ℚ) / (ps : ℚ)) = (q : ℤ) := by
    rw [Int.ceil_eq_iff]
    constructor
    · rw [lt_div_iff₀ hb0]
      push_cast
      have hr0 : (r:ℚ) ≥ 0 := by positivity
      nlinarith [hcast]
    · rw [div_le_iff₀ hb0]
      push_cast
      have hr1 : (r:ℚ) + 1 ≤ ps := by exact_mod_cast hrb
      nlinarith [hcast]
  rw [goCeilDiv, hceil]
  simp

theorem mem_visibleRows {rows : List Customer} {c : Customer} :
    c ∈ visibleRows rows ↔ c ∈ rows ∧ c.deletedAt = none := by
  simp [visibleRows]

theorem mem_sortByCreatedDesc {rows : List Customer} {c : Customer} :
    c ∈ sortByCreatedDesc rows ↔ c ∈ rows :=
  (List.perm_insertionSort createdDesc rows).mem_iff

theorem sorted_sortByCreatedDesc (rows : List Customer) :
    List.Pairwise createdDesc (sortByCreatedDesc rows) :=
  List.sorted_insertionSort createdDesc rows

theorem mem_pageSlice {page pageSize : Int} {rows : List Customer} {c : Customer}
    (h : c ∈ pageSlice page pageSize rows) : c ∈ rows :=
  List.mem_of_mem_drop (List.mem_of_mem_take h)

theorem pairwise_pageSlice {page pageSize : Int} {rows : List Customer}
    (h : List.Pairwise createdDesc rows) :
    List.Pairwise createdDesc (pageSlice page pageSize rows) :=
  h.sublist ((List.take_sublist _ _).trans (List.drop_sublist _ _))

theorem mem_listCustomers {db : DB} {page pageSize : Int} {r : CustomerResponse}
    (h : r ∈ (listCustomers db page pageSize).customers) :
    ∃ c, c ∈ db.rows ∧ c.deletedAt = none ∧ r = c.toResponse := by
  simp only [listCustomers, repoList] at h
  rcases List.mem_map.mp h with ⟨c, hc, rfl⟩
  have hc2 := mem_sortByCreatedDesc.mp (mem_pageSlice hc)
  rcases mem_visibleRows.mp hc2 with ⟨hmem, hdel⟩
  exact ⟨c, hmem, hdel, rfl⟩

theorem mem_searchCustomers {db : DB} {req : CustomerSearchRequest} {r : CustomerResponse}
    (h : r ∈ (searchCustomers db req).customers) :
    ∃ c, c ∈ db.rows ∧ c.deletedAt = none ∧
      searchFilter req c = true ∧ r = c.toResponse := by
  simp only [searchCustomers, repoSearch] at h
  rcases List.mem_map.mp h with ⟨c, hc, rfl⟩
  have hc2 := mem_sortByCreatedDesc.mp (mem_pageSlice hc)
  rcases List.mem_filter.mp hc2 with ⟨hvis, hfilt⟩
  rcases mem_visibleRows.mp hvis with ⟨hmem, hdel⟩
  refine ⟨c, hmem, hdel, ?_, rfl⟩
  simpa [searchFilter] using hfilt

/-! ### Concrete fixtures -/

def addr0 : Address :=
  { street := "", city := "", state := "", postalCode := "", country := "" }

def reqJohn : CustomerRequest :=
  { firstName := "John", lastName := "Doe", email := "john@x.com",
    phone := "0123456789", dateOfBirth := none, address := addr0 }

def reqJane : CustomerRequest :=
  { firstName := "Jane", lastName := "Roe", email := "jane@x.com",
    phone := "0123456700", dateOfBirth := none, address := addr0 }

def johnActive : Customer :=
  { id := 1, firstName := "John", lastName := "Doe", email := "john@x.com",
    phone := "0123456789", dateOfBirth := none, address := addr0,
    status := customerStatusActive, createdAt := 5, updatedAt := 5,
    deletedAt := none }

def janeActive : Customer :=
  { id := 2, firstName := "Jane", lastName := "Roe", email := "jane@x.com",
    phone := "0123456700", dateOfBirth := none, address := addr0,
    status := customerStatusActive, createdAt := 6, updatedAt := 6,
    deletedAt := none }

def johnDeleted : Customer :=
  { johnActive with deletedAt := some 9 }

def reqShort : CustomerRequest :=
  { firstName := "A", lastName := "Doe", email := "not-an-email",
    phone := "1", dateOfBirth := none, address := addr0 }

def reqEmptyFirst : CustomerRequest :=
  { firstName := "", lastName := "Doe", email := "john@x.com",
    phone := "0123456789", dateOfBirth := none, address := addr0 }

theorem append_ne_of_take2 (pre t : String) (h2 : 2 ≤ pre.data.length)
    (hne : pre.data.take 2 ≠ t.data.take 2) : ∀ err : String, pre ++ err ≠ t := by
  intro err h
  have hd := congrArg (fun s : String => s.data.take 2) h
  simp only at hd
  rw [String.data_append, List.take_append_of_le_length h2] at hd
  exact hne hd

/-! ### Claims -/

/-- Claim C1, counterexample: a request whose first name has length 1
(violating the 2–100 constraint), whose email is not syntactically valid and
whose phone has length 1 (violating 10–20) nevertheless passes
`validateCustomerRequest`, and `CreateCustomer` succeeds on it, so the
service does not fail with a ValidationError on every field-constraint
violation. -/
theorem claim_C1_counterexample :
    reqShort.firstName.length = 1 ∧
    reqShort.phone.length = 1 ∧
    validateCustomerRequest reqShort = none ∧
    (createCustomer ⟨[]⟩ reqShort 1 5).isOk = true := by
  refine ⟨?_, ?_, ?_, ?_⟩ <;> decide

/-- Claim C1, amended: the service validation checks only that first_name,
last_name, email and phone are non-empty, fail-fast with the first empty
field winning in the order first_name, last_name, email, phone; the length
and email-syntax constraints declared as struct tags are not enforced.  When
validation fails, CreateCustomer and UpdateCustomer fail with that
ValidationError. -/
theorem claim_C1_amended (db : DB) (req : CustomerRequest) (newId now id : Nat) :
    (validateCustomerRequest req = none ↔
      (req.firstName ≠ "" ∧ req.lastName ≠ "" ∧ req.email ≠ "" ∧ req.phone ≠ "")) ∧
    (req.firstName = "" → validateCustomerRequest req = some "first name is required") ∧
    (req.firstName ≠ "" → req.lastName = "" →
      validateCustomerRequest req = some "last name is required") ∧
    (req.firstName ≠ "" → req.lastName ≠ "" → req.email = "" →
      validateCustomerRequest req = some "email is required") ∧
    (req.firstName ≠ "" → req.lastName ≠ "" → req.email ≠ "" → req.phone = "" →
      validateCustomerRequest req = some "phone is required") ∧
    (∀ msg, validateCustomerRequest req = some msg →
      isValidationError msg = true ∧
      createCustomer db req newId now = Except.error msg ∧
      updateCustomer db id req now = Except.error msg) := by
  by_cases h1 : req.firstName = "" <;> by_cases h2 : req.lastName = "" <;>
    by_cases h3 : req.email = "" <;> by_cases h4 : req.phone = "" <;>
    simp_all [validateCustomerRequest, createCustomer, createCustomerWith,
      createCustomerCore, updateCustomer, isValidationError]

/-- Claim C1 witness: on a request with an empty first name, validation
reports the first-name message and CreateCustomer fails with it. -/
theorem claim_C1_witness :
    validateCustomerRequest reqEmptyFirst = some "first name is required" ∧
    createCustomer ⟨[]⟩ reqEmptyFirst 1 5 = Except.error "first name is required" := by
  have h := claim_C1_amended ⟨[]⟩ reqEmptyFirst 1 5 0
  have hv := h.2.1 (by decide)
  exact ⟨hv, (h.2.2.2.2.2 _ hv).2.1⟩

/-- Claim C9, counterexample: a non-duplicate store failure is wrapped as
`failed to create customer: <raw>`; the raw storage error text occurs
verbatim in the translated message, so it is not hidden from the caller. -/
theorem claim_C9_counterexample :
    translateCreateErr "connection refused" =
      "failed to create customer: connection refused" ∧
    strContains "connection refused" (translateCreateErr "connection refused") = true := by
  refine ⟨?_, ?_⟩ <;> decide

/-- Claim C9, amended: at the persistence gateway, a store error containing
`duplicate key` is translated by Create and Update into the domain
ConflictError; any other store failure is wrapped with an operation-specific
prefix, yielding a message distinct from the ValidationError, ConflictError
and NotFoundError kinds — but the wrapped message retains the raw storage
error text rather than hiding it. -/
theorem claim_C9_amended (err : String) :
    (strContains "duplicate key" err = true →
      translateCreateErr err = "customer with this email already exists" ∧
      translateUpdateErr err = "customer with this email already exists" ∧
      isConflictError (translateCreateErr err) = true) ∧
    (strContains "duplicate key" err = false →
      translateCreateErr err = "failed to create customer: " ++ err ∧
      translateUpdateErr err = "failed to update customer: " ++ err ∧
      strContains err (translateCreateErr err) = true ∧
      isValidationError (translateCreateErr err) = false ∧
      isConflictError (translateCreateErr err) = false ∧
      isNotFoundError (translateCreateErr err) = false ∧
      isValidationError (translateUpdateErr err) = false ∧
      isConflictError (translateUpdateErr err) = false ∧
      isNotFoundError (translateUpdateErr err) = false) := by
  constructor
  · intro h
    simp [translateCreateErr, translateUpdateErr, isConflictError, h]
  · intro h
    have hc : translateCreateErr err = "failed to create customer: " ++ err := by
      simp [translateCreateErr, h]
    have hu : translateUpdateErr err = "failed to update customer: " ++ err := by
      simp [translateUpdateErr, h]
    have hsub : strContains err ("failed to create customer: " ++ err) = true := by
      rw [strContains, isSubList_iff]
      refine ⟨"failed to create customer: ".toList, [], ?_⟩
      simp [String.toList, String.data_append]
    have nc1 := append_ne_of_take2 "failed to create customer: "
      "first name is required" (by decide) (by decide) err
    have nc2 := append_ne_of_take2 "failed to create customer: "
      "last name is required" (by decide) (by decide) err
    have nc3 := append_ne_of_take2 "failed to create customer: "
      "email is required" (by decide) (by decide) err
    have nc4 := append_ne_of_take2 "failed to create customer: "
      "phone is required" (by decide) (by decide) err
    have nc5 := append_ne_of_take2 "failed to create customer: "
      "customer with this email already exists" (by decide) (by decide) err
    have nc6 := append_ne_of_take2 "failed to create customer: "
      "customer not found" (by decide) (by decide) err
    have nu1 := append_ne_of_take2 "failed to update customer: "
      "first name is required" (by decide) (by decide) err
    have nu2 := append_ne_of_take2 "failed to update customer: "
      "last name is required" (by decide) (by decide) err
    have nu3 := append_ne_of_take2 "failed to update customer: "
      "email is required" (by decide) (by decide) err
    have nu4 := append_ne_of_take2 "failed to update customer: "
      "phone is required" (by decide) (by decide) err
    have nu5 := append_ne_of_take2 "failed to update customer: "
      "customer with this email already exists" (by decide) (by decide) err
    have nu6 := append_ne_of_take2 "failed to update customer: "
      "customer not found" (by decide) (by decide) err
    rw [hc, hu]
    refine ⟨rfl, rfl, hsub, ?_, ?_, ?_, ?_, ?_, ?_⟩ <;>
      simp [isValidationError, isConflictError, isNotFoundError,
        nc1, nc2, nc3, nc4, nc5, nc6, nu1, nu2, nu3, nu4, nu5, nu6]

/-- Claim C9 witness: the duplicate-key message maps to the conflict error,
and a plain failure is wrapped with the update prefix. -/
theorem claim_C9_witness :
    translateCreateErr duplicateKeyMsg = "customer with this email already exists" ∧
    translateUpdateErr "boom" = "failed to update customer: boom" := by
  refine ⟨((claim_C9_amended duplicateKeyMsg).1 (by decide)).1,
    ((claim_C9_amended "boom").2 (by decide)).2.1⟩

/-- Claim C10: CreateCustomer discards the error of the GetByEmail pre-check
lookup — a failing lookup (for any reason) leaves creation exactly on the
path taken when no customer with that email exists, and a conflict is then
surfaced only by the insert itself. -/
theorem claim_C10 (err : String) (db : DB) (req : CustomerRequest) (newId now : Nat) :
    createCustomerWith (Except.error err) db req newId now =
      createCustomerCore none db req newId now ∧
    createCustomer db req newId now =
      createCustomerWith (repoGetByEmail db req.email) db req newId now ∧
    (validateCustomerRequest req = none →
      db.rows.any (fun r => r.email = req.email) = true →
      createCustomerWith (Except.error err) db req newId now =
        Except.error "customer with this email already exists") := by
  refine ⟨rfl, rfl, fun hv hdup => ?_⟩
  simp [createCustomerWith, createCustomerCore, Except.toOption, hv, repoCreate,
    storeInsert, hdup, translateCreateErr, strContains]
  decide

/-- Claim C10 witness: with a failing pre-check lookup and an existing active
holder of the email, creation still reports the conflict, via the insert. -/
theorem claim_C10_witness :
    createCustomerWith (Except.error "database offline") ⟨[johnActive]⟩ reqJohn 2 10 =
      Except.error "customer with this email already exists" :=
  (claim_C10 "database offline" ⟨[johnActive]⟩ reqJohn 2 10).2.2 (by decide) (by decide)

/-- Claim C2, counterexample: the store in which the only customer holding
`john@x.com` is soft-deleted; re-creating a customer with that email does not
succeed — the full-column unique index on email rejects the insert and the
service reports the ConflictError. -/
theorem claim_C2_counterexample :
    johnDeleted.deletedAt = some 9 ∧
    validateCustomerRequest reqJohn = none ∧
    reqJohn.email = johnDeleted.email ∧
    createCustomer ⟨[johnDeleted]⟩ reqJohn 2 10 =
      Except.error "customer with this email already exists" := by
  refine ⟨?_, ?_, ?_, ?_⟩ <;> decide

/-- Claim C2, amended: email uniqueness is enforced over all rows, deleted or
not — creating a customer whose email is held by any existing row (the
soft-delete marker notwithstanding) fails with ConflictError, the non-deleted
holder being caught by the service pre-check and the deleted holder by the
store's duplicate-key translation; creation succeeds when no row holds the
email. -/
theorem claim_C2_amended (db : DB) (req : CustomerRequest) (newId now : Nat)
    (hv : validateCustomerRequest req = none) :
    ((∃ c, c ∈ db.rows ∧ c.email = req.email) →
      createCustomer db req newId now =
        Except.error "customer with this email already exists") ∧
    ((∀ c, c ∈ db.rows → c.email ≠ req.email) →
      ∃ saved, createCustomer db req newId now =
          Except.ok (⟨db.rows ++ [saved]⟩, saved.toResponse) ∧
        saved.email = req.email ∧ saved.deletedAt = none ∧
        saved.status = customerStatusActive ∧ saved.id = newId) := by
  constructor
  · rintro ⟨c, hc, he⟩
    have hany : db.rows.any (fun r => r.email = req.email) = true :=
      List.any_eq_true.mpr ⟨c, hc, by simp [he]⟩
    cases hge : repoGetByEmail db req.email with
    | ok c2 =>
      simp [createCustomer, createCustomerWith, createCustomerCore, hv, hge,
        Except.toOption]
    | error e =>
      simp [createCustomer, createCustomerWith, createCustomerCore, hv, hge,
        Except.toOption, repoCreate, storeInsert, hany]
      decide
  · intro hno
    have hfind : (visibleRows db.rows).find? (fun c => c.email = req.email) = none := by
      apply List.find?_eq_none.mpr
      intro x hx
      simp only [decide_eq_true_eq]
      exact hno x (mem_visibleRows.mp hx).1
    have hany : db.rows.any (fun r => r.email = req.email) = false := by
      rw [List.any_eq_false]
      intro c hc
      simp [hno c hc]
    refine ⟨{ id := newId,
              firstName := req.firstName,
              lastName := req.lastName,
              email := req.email,
              phone := req.phone,
              dateOfBirth := req.dateOfBirth,
              address := req.address,
              status := customerStatusActive,
              createdAt := now,
              updatedAt := now,
              deletedAt := none }, ?_, rfl, rfl, rfl, rfl⟩
    simp [createCustomer, createCustomerWith, createCustomerCore, hv,
      repoGetByEmail, hfind, Except.toOption, repoCreate, storeInsert, hany]

/-- Claim C2 witness: both branches of the amended claim at concrete stores —
conflict when a soft-deleted row holds the email, success on a fresh email. -/
theorem claim_C2_witness :
    createCustomer ⟨[johnDeleted]⟩ reqJohn 2 10 =
      Except.error "customer with this email already exists" ∧
    (createCustomer ⟨[johnDeleted]⟩ reqJane 2 10).isOk = true := by
  constructor
  · exact (claim_C2_amended ⟨[johnDeleted]⟩ reqJohn 2 10 (by decide)).1
      ⟨johnDeleted, by decide, by decide⟩
  · obtain ⟨saved, heq, -, -, -, -⟩ :=
      (claim_C2_amended ⟨[johnDeleted]⟩ reqJane 2 10 (by decide)).2 (by decide)
    rw [heq]
    rfl

/-- Claim C4: ListCustomers and SearchCustomers normalize page to at least 1
(default 1) and pageSize into [1,100] (default 10 when non-positive, capped
at 100 when larger); in particular page_size 150 behaves exactly as 100. -/
theorem claim_C4 (db : DB) (page pageSize : Int) (req : CustomerSearchRequest) :
    (1 ≤ normPage page ∧ (page ≤ 0 → normPage page = 1) ∧
      (1 ≤ page → normPage page = page)) ∧
    (1 ≤ normPageSize pageSize ∧ normPageSize pageSize ≤ 100 ∧
      (pageSize ≤ 0 → normPageSize pageSize = 10) ∧
      (100 < pageSize → normPageSize pageSize = 100) ∧
      (1 ≤ pageSize → pageSize ≤ 100 → normPageSize pageSize = pageSize)) ∧
    ((listCustomers db page pageSize).page = normPage page ∧
      (listCustomers db page pageSize).pageSize = normPageSize pageSize ∧
      (searchCustomers db req).page = normPage req.page ∧
      (searchCustomers db req).pageSize = normPageSize req.pageSize) ∧
    listCustomers db 1 150 = listCustomers db 1 100 := by
  have hp : 1 ≤ normPage page ∧ (page ≤ 0 → normPage page = 1) ∧
      (1 ≤ page → normPage page = page) := by
    unfold normPage
    split_ifs <;> omega
  have hs : 1 ≤ normPageSize pageSize ∧ normPageSize pageSize ≤ 100 ∧
      (pageSize ≤ 0 → normPageSize pageSize = 10) ∧
      (100 < pageSize → normPageSize pageSize = 100) ∧
      (1 ≤ pageSize → pageSize ≤ 100 → normPageSize pageSize = pageSize) := by
    unfold normPageSize
    split_ifs <;> omega
  exact ⟨hp, hs, ⟨rfl, rfl, rfl, rfl⟩, rfl⟩

/-- Claim C4 witness: page 0 normalizes to 1 and page_size 150 caps at 100 in
the ListCustomers response. -/
theorem claim_C4_witness :
    (listCustomers ⟨[]⟩ 0 150).page = 1 ∧
    (listCustomers ⟨[]⟩ 0 150).pageSize = 100 := by
  have h := claim_C4 ⟨[]⟩ 0 150 ⟨"", "", 1, 10⟩
  constructor
  · rw [h.2.2.1.1]
    exact h.1.2.1 (by norm_num)
  · rw [h.2.2.1.2.1]
    exact h.2.1.2.2.2.1 (by norm_num)

/-- Claim C5: the totalPages field of ListCustomers and SearchCustomers
responses equals the ceiling of total divided by the normalized page size
(computed in the code as `int(math.Ceil(float64(total)/float64(pageSize)))`),
i.e. the exact Nat ceiling division; total 25 with page size 10 gives 3. -/
theorem claim_C5 (db : DB) (page pageSize : Int) (req : CustomerSearchRequest) :
    (listCustomers db page pageSize).totalPages =
      ((listCustomers db page pageSize).total +
          (listCustomers db page pageSize).pageSize.toNat - 1) /
        (listCustomers db page pageSize).pageSize.toNat ∧
    (searchCustomers db req).totalPages =
      ((searchCustomers db req).total +
          (searchCustomers db req).pageSize.toNat - 1) /
        (searchCustomers db req).pageSize.toNat ∧
    goCeilDiv 25 10 = 3 := by
  have hps : ∀ z : Int, 1 ≤ (normPageSize z).toNat := by
    intro z
    unfold normPageSize
    split_ifs <;> omega
  refine ⟨?_, ?_, ?_⟩
  · exact goCeilDiv_eq _ _ (hps pageSize)
  · exact goCeilDiv_eq _ _ (hps req.pageSize)
  · rw [goCeilDiv_eq 25 10 (by norm_num)]

/-- Claim C7: when the update request carries a changed email that some other
non-deleted customer already holds, UpdateCustomer fails with ConflictError —
and by construction of the state-passing embedding the error result carries
no new store state, so the targeted record is untouched; when the request
email equals the stored one, the operation goes straight to the save path,
performing no service-level uniqueness lookup. -/
theorem claim_C7 (db : DB) (id now : Nat) (req : CustomerRequest) (c other : Customer)
    (hv : validateCustomerRequest req = none)
    (hget : repoGetByID db id = Except.ok c) :
    (c.email ≠ req.email → other ∈ db.rows → other.deletedAt = none →
      other.email = req.email →
      updateCustomer db id req now =
        Except.error "customer with this email already exists" ∧ other ≠ c) ∧
    (c.email = req.email →
      updateCustomer db id req now = updateApply db c req now) := by
  constructor
  · intro hne hmem hdel hoe
    have hfind : (visibleRows db.rows).find? (fun x => x.email = req.email) ≠ none := by
      intro hnone
      have hx := List.find?_eq_none.mp hnone other (mem_visibleRows.mpr ⟨hmem, hdel⟩)
      simp [hoe] at hx
    obtain ⟨x, hx⟩ := Option.ne_none_iff_exists'.mp hfind
    refine ⟨?_, fun h => hne (h ▸ hoe)⟩
    simp [updateCustomer, hv, hget, hne, repoGetByEmail, hx, Except.toOption]
  · intro heq
    simp [updateCustomer, hv, hget, heq]

/-- Claim C7 witness: updating John's email to Jane's (held by the active
customer Jane) reports the conflict. -/
theorem claim_C7_witness :
    updateCustomer ⟨[johnActive, janeActive]⟩ 1
        { reqJohn with email := "jane@x.com" } 20 =
      Except.error "customer with this email already exists" :=
  ((claim_C7 ⟨[johnActive, janeActive]⟩ 1 20 { reqJohn with email := "jane@x.com" }
      johnActive janeActive (by decide) (by decide)).1
    (by decide) (by decide) (by decide) (by decide)).1

theorem updateApply_ok (db db2 : DB) (c : Customer) (req : CustomerRequest)
    (now : Nat) (resp : CustomerResponse)
    (h : updateApply db c req now = Except.ok (db2, resp)) :
    ∃ saved : Customer,
      saved.firstName = req.firstName ∧ saved.lastName = req.lastName ∧
      saved.email = req.email ∧ saved.phone = req.phone ∧
      saved.dateOfBirth = req.dateOfBirth ∧ saved.address = req.address ∧
      saved.id = c.id ∧ saved.status = c.status ∧
      saved.createdAt = c.createdAt ∧ saved.deletedAt = c.deletedAt ∧
      saved.updatedAt = now ∧
      db2.rows = db.rows.map (fun r =>
        if r.id = c.id ∧ r.deletedAt = none then saved else r) ∧
      resp = saved.toResponse := by
  simp only [updateApply, repoUpdate, storeSave] at h
  by_cases hclash :
      (db.rows.any fun r => decide (r.email = req.email ∧ r.id ≠ c.id)) = true
  · rw [if_pos hclash] at h
    simp at h
  · rw [if_neg hclash] at h
    dsimp only at h
    simp only [Except.ok.injEq, Prod.mk.injEq] at h
    obtain ⟨hdb, hresp⟩ := h
    refine ⟨{ c with
              firstName := req.firstName,
              lastName := req.lastName,
              email := req.email,
              phone := req.phone,
              dateOfBirth := req.dateOfBirth,
              address := req.address,
              updatedAt := now },
      rfl, rfl, rfl, rfl, rfl, rfl, rfl, rfl, rfl, rfl, rfl, ?_, ?_⟩
    · rw [← hdb]
    · rw [← hresp]

/-- Claim C6: a successful UpdateCustomer overwrites exactly first_name,
last_name, email, phone, date_of_birth and address of the loaded customer
with the request values (the persistence layer also refreshes updated_at),
while id, status, created_at and the soft-delete marker retain their prior
values; the store replaces the row by primary key. -/
theorem claim_C6 (db db2 : DB) (id now : Nat) (req : CustomerRequest)
    (resp : CustomerResponse)
    (h : updateCustomer db id req now = Except.ok (db2, resp)) :
    ∃ old saved : Customer, repoGetByID db id = Except.ok old ∧
      saved.firstName = req.firstName ∧ saved.lastName = req.lastName ∧
      saved.email = req.email ∧ saved.phone = req.phone ∧
      saved.dateOfBirth = req.dateOfBirth ∧ saved.address = req.address ∧
      saved.id = old.id ∧ saved.status = old.status ∧
      saved.createdAt = old.createdAt ∧ saved.deletedAt = old.deletedAt ∧
      saved.updatedAt = now ∧
      db2.rows = db.rows.map (fun r =>
        if r.id = old.id ∧ r.deletedAt = none then saved else r) ∧
      resp = saved.toResponse := by
  unfold updateCustomer at h
  cases hval : validateCustomerRequest req with
  | some m => rw [hval] at h; simp at h
  | none =>
  rw [hval] at h
  cases hget : repoGetByID db id with
  | error e => rw [hget] at h; simp at h
  | ok c =>
  rw [hget] at h
  dsimp only at h
  have happ : updateApply db c req now = Except.ok (db2, resp) := by
    by_cases hne : c.email ≠ req.email
    · rw [if_pos hne] at h
      cases htop : (repoGetByEmail db req.email).toOption with
      | some x => rw [htop] at h; simp at h
      | none => rw [htop] at h; exact h
    · rwa [if_neg hne] at h
  obtain ⟨saved, hs⟩ := updateApply_ok db db2 c req now resp happ
  exact ⟨c, saved, rfl, hs⟩

/-- Claim C6 witness: updating John with Jane's field values produces exactly
the overwritten row, keeping id and status. -/
theorem claim_C6_witness :
    ∃ old saved : Customer,
      repoGetByID ⟨[johnActive]⟩ 1 = Except.ok old ∧
      saved.firstName = reqJane.firstName ∧ saved.lastName = reqJane.lastName ∧
      saved.email = reqJane.email ∧ saved.phone = reqJane.phone ∧
      saved.dateOfBirth = reqJane.dateOfBirth ∧ saved.address = reqJane.address ∧
      saved.id = old.id ∧ saved.status = old.status ∧
      saved.createdAt = old.createdAt ∧ saved.deletedAt = old.deletedAt ∧
      saved.updatedAt = 20 ∧
      (DB.mk [{ johnActive with
                firstName := "Jane",
                lastName := "Roe",
                email := "jane@x.com",
                phone := "0123456700",
                updatedAt := 20 }]).rows =
        (DB.mk [johnActive]).rows.map (fun r =>
          if r.id = old.id ∧ r.deletedAt = none then saved else r) ∧
      ({ johnActive with
         firstName := "Jane",
         lastName := "Roe",
         email := "jane@x.com",
         phone := "0123456700",
         updatedAt := 20 } : Customer).toResponse = saved.toResponse :=
  claim_C6 ⟨[johnActive]⟩ _ 1 20 reqJane _ (by decide)

/-- Claim C3: after a successful DeleteCustomer the customer is invisible to
GetCustomer, ListCustomers, SearchCustomers and UpdateCustomer (NotFoundError
or omission from results), while a row with that id persists carrying a
soft-delete marker; DeleteCustomer itself fails with NotFoundError when no
non-deleted customer has the id. -/
theorem claim_C3 (db db2 : DB) (id now : Nat) :
    (deleteCustomer db id now = Except.ok db2 →
      getCustomer db2 id = Except.error "customer not found" ∧
      (∃ c, c ∈ db2.rows ∧ c.id = id ∧ c.deletedAt = some now) ∧
      (∀ page pageSize : Int,
        ∀ r ∈ (listCustomers db2 page pageSize).customers, r.id ≠ id) ∧
      (∀ req : CustomerSearchRequest,
        ∀ r ∈ (searchCustomers db2 req).customers, r.id ≠ id) ∧
      (∀ (req : CustomerRequest) (now2 : Nat), validateCustomerRequest req = none →
        updateCustomer db2 id req now2 = Except.error "customer not found")) ∧
    ((∀ c, c ∈ db.rows → c.id = id → c.deletedAt ≠ none) →
      deleteCustomer db id now = Except.error "customer not found") := by
  constructor
  · intro h
    unfold deleteCustomer at h
    cases hget : repoGetByID db id with
    | error e => rw [hget] at h; simp at h
    | ok c0 =>
    rw [hget] at h
    dsimp only at h
    simp only [repoDelete] at h
    split at h
    · simp at h
    · simp only [Except.ok.injEq] at h
      have hrows : db2.rows = db.rows.map (fun c =>
          if c.id = id ∧ c.deletedAt = none then { c with deletedAt := some now }
          else c) := by
        rw [← h]
      have hc0 : c0 ∈ db.rows ∧ c0.deletedAt = none ∧ c0.id = id := by
        unfold repoGetByID at hget
        cases hfind : (visibleRows db.rows).find? (fun c => c.id = id) with
        | none => rw [hfind] at hget; simp at hget
        | some c1 =>
          rw [hfind] at hget
          simp only [Except.ok.injEq] at hget
          subst hget
          have hmem := mem_visibleRows.mp (List.mem_of_find?_eq_some hfind)
          have hpred := List.find?_some hfind
          simp only [decide_eq_true_eq] at hpred
          exact ⟨hmem.1, hmem.2, hpred⟩
      have hmark : ∀ c, c ∈ db2.rows → c.id = id → c.deletedAt ≠ none := by
        intro c hc hcid
        rw [hrows] at hc
        rcases List.mem_map.mp hc with ⟨r, hr, rfl⟩
        split_ifs at hcid ⊢ with hcond
        · simp
        · exact fun hdel => hcond ⟨hcid, hdel⟩
      have hvis2 : (visibleRows db2.rows).find? (fun c => c.id = id) = none := by
        apply List.find?_eq_none.mpr
        intro x hx
        simp only [decide_eq_true_eq]
        intro hxid
        exact hmark x (mem_visibleRows.mp hx).1 hxid (mem_visibleRows.mp hx).2
      refine ⟨?_, ?_, ?_, ?_, ?_⟩
      · simp [getCustomer, repoGetByID, hvis2]
      · refine ⟨{ c0 with deletedAt := some now }, ?_, by simp [hc0.2.2], by simp⟩
        rw [hrows]
        have : { c0 with deletedAt := some now } =
            (fun c => if c.id = id ∧ c.deletedAt = none then
              { c with deletedAt := some now } else c) c0 := by
          simp [hc0.2.1, hc0.2.2]
        rw [this]
        exact List.mem_map_of_mem _ hc0.1
      · intro page pageSize r hr
        rcases mem_listCustomers hr with ⟨c, hc, hdel, rfl⟩
        exact fun heq =>
          hmark c hc (by simpa [Customer.toResponse] using heq) hdel
      · intro req r hr
        rcases mem_searchCustomers hr with ⟨c, hc, hdel, -, rfl⟩
        exact fun heq =>
          hmark c hc (by simpa [Customer.toResponse] using heq) hdel
      · intro req now2 hv
        simp [updateCustomer, hv, repoGetByID, hvis2]
  · intro hall
    have hvis : (visibleRows db.rows).find? (fun c => c.id = id) = none := by
      apply List.find?_eq_none.mpr
      intro x hx
      simp only [decide_eq_true_eq]
      intro hxid
      exact hall x (mem_visibleRows.mp hx).1 hxid (mem_visibleRows.mp hx).2
    simp [deleteCustomer, repoGetByID, hvis]

/-- Claim C3 witness: deleting John makes GetCustomer report not-found, the
marked row persists, and deleting again reports not-found. -/
theorem claim_C3_witness :
    getCustomer ⟨[johnDeleted]⟩ 1 = Except.error "customer not found" ∧
    (∃ c, c ∈ (DB.mk [johnDeleted]).rows ∧ c.id = 1 ∧ c.deletedAt = some 9) ∧
    deleteCustomer ⟨[johnDeleted]⟩ 1 11 = Except.error "customer not found" := by
  have h1 := (claim_C3 ⟨[johnActive]⟩ ⟨[johnDeleted]⟩ 1 9).1 (by decide)
  exact ⟨h1.1, h1.2.1, (claim_C3 ⟨[johnDeleted]⟩ ⟨[johnDeleted]⟩ 1 11).2 (by decide)⟩

theorem searchFilter_iff (req : CustomerSearchRequest) (c : Customer) :
    searchFilter req c = true ↔ SearchMatches req c := by
  unfold searchFilter SearchMatches
  simp [iLikeContains_iff, or_iff_not_imp_left]

theorem pairwise_searchCustomers (db : DB) (req : CustomerSearchRequest) :
    List.Pairwise (fun a b : CustomerResponse => b.createdAt ≤ a.createdAt)
      (searchCustomers db req).customers := by
  simp only [searchCustomers, repoSearch]
  exact List.Pairwise.map _ (fun a b hab => hab)
    (pairwise_pageSlice (sorted_sortByCreatedDesc _))

/-- Claim C8: in SearchCustomers a customer satisfies the filter exactly when
a non-empty query occurs case-insensitively as a substring of first_name,
last_name, email or phone (logical OR) and a non-empty status equals its
status exactly (the two combined with AND); every returned item is a
non-deleted matching customer, the reported total counts exactly the
non-deleted matching customers, results are ordered by created_at descending,
and the pagination metadata follows the ListCustomers contract. -/
theorem claim_C8 (db : DB) (req : CustomerSearchRequest) :
    (∀ c, searchFilter req c = true ↔ SearchMatches req c) ∧
    (∀ r ∈ (searchCustomers db req).customers,
      ∃ c, c ∈ db.rows ∧ c.deletedAt = none ∧ SearchMatches req c ∧
        r = c.toResponse) ∧
    (searchCustomers db req).total =
      (db.rows.filter (fun c => c.deletedAt = none ∧ SearchMatches req c)).length ∧
    List.Pairwise (fun a b : CustomerResponse => b.createdAt ≤ a.createdAt)
      (searchCustomers db req).customers ∧
    (searchCustomers db req).totalPages =
      goCeilDiv (searchCustomers db req).total
        (searchCustomers db req).pageSize.toNat := by
  refine ⟨searchFilter_iff req, ?_, ?_, pairwise_searchCustomers db req, rfl⟩
  · intro r hr
    rcases mem_searchCustomers hr with ⟨c, hc, hdel, hf, rfl⟩
    exact ⟨c, hc, hdel, (searchFilter_iff req c).mp hf, rfl⟩
  · have h0 : (searchCustomers db req).total =
        ((visibleRows db.rows).filter (searchFilter req)).length := rfl
    rw [h0]
    simp only [visibleRows, List.filter_filter]
    apply congrArg List.length
    apply List.filter_congr
    intro c hc
    have hb : searchFilter req c = decide (SearchMatches req c) := by
      rw [Bool.eq_iff_iff]
      simp [searchFilter_iff]
    simp [hb, Bool.and_comm]

/-- Claim C8 witness: searching `JO` over the store holding John and Jane
returns John's view, which the theorem certifies as a non-deleted matching
customer. -/
theorem claim_C8_witness :
    ∃ c, c ∈ (DB.mk [johnActive, janeActive]).rows ∧ c.deletedAt = none ∧
      SearchMatches ⟨"JO", "", 1, 10⟩ c ∧
      johnActive.toResponse = c.toResponse :=
  (claim_C8 ⟨[johnActive, janeActive]⟩ ⟨"JO", "", 1, 10⟩).2.1
    johnActive.toResponse (by decide)

end CoreBank
